import Mathlib

/-!
Shallow embedding of `research/object_detection/builders/dataset_builder.py`.

The Python module assembles a `tf.data` input pipeline from an
`input_reader_pb2.InputReader` configuration.  We embed the pipeline that the
module constructs as a first-order expression tree (`DatasetExpr`): each
`tf.data` primitive the module invokes becomes one node, carrying exactly the
arguments the module passes.  External library calls whose results the module
merely threads through (`tf.gfile.Glob`) are parameters of the embedding, and
the documented element-level behavior of the `tf.data` primitives that some
claims need (`Dataset.repeat`, `batch_and_drop_remainder`) is modelled by
separate denotation functions.
-/

set_option autoImplicit false

/-- Configuration message `TFRecordInputReader` from `input_reader.proto`:
only its repeated `input_path` field is used by the module. -/
structure TFRecordInputReader where
  input_path : List String
deriving DecidableEq, Repr

/-- The possible set cases of the `input_reader` oneof of the `InputReader`
proto message. -/
inductive InputReaderOneofCase where
  | tf_record_input_reader (config : TFRecordInputReader)
  | external_input_reader
deriving DecidableEq, Repr

/-- The fields of the `input_reader_pb2.InputReader` configuration message
that `dataset_builder.py` reads.  `input_reader` models the proto oneof:
`none` means the oneof is unset (`WhichOneof` returns `None`).
`label_map_path` is `none` when `HasField` would be false. -/
structure InputReader where
  num_readers : Nat
  read_block_length : Nat
  shuffle : Bool
  filenames_shuffle_buffer_size : Nat
  shuffle_buffer_size : Nat
  num_epochs : Nat
  sample_1_of_n_examples : Nat
  num_parallel_batches : Nat
  num_parallel_map_calls : Nat
  num_prefetch_batches : Nat
  load_instance_masks : Bool
  mask_type : Nat
  use_display_name : Bool
  num_additional_channels : Nat
  label_map_path : Option String
  input_reader : Option InputReaderOneofCase
deriving DecidableEq, Repr

/-- Proto accessor semantics for the oneof member: reading
`input_reader_config.tf_record_input_reader` yields the set value, or the
default (empty) message when the oneof is unset or set to another member. -/
def InputReader.tf_record_input_reader (r : InputReader) : TFRecordInputReader :=
  match r.input_reader with
  | some (InputReaderOneofCase.tf_record_input_reader config) => config
  | _ => ⟨[]⟩

/-- The argument passed to `build`: either an actual
`input_reader_pb2.InputReader` instance, or any other Python object, which
fails the `isinstance` check. -/
inductive PyObject where
  | reader (r : InputReader)
  | notReader
deriving DecidableEq, Repr

/-- The file-reading function handed to `tf.contrib.data.parallel_interleave`.
`build` always passes `functools.partial(tf.data.TFRecordDataset,
buffer_size=8 * 1000 * 1000)`; `read_dataset` accepts it as a parameter. -/
inductive FileReadFn where
  | tfRecordDataset (buffer_size : Nat)
deriving DecidableEq, Repr

/-- The arguments of the `TfExampleDecoder` constructor call in `build`.
The decoding logic itself lives in `object_detection.data_decoders` and is
out of scope; the embedding records the configuration `build` passes. -/
structure TfExampleDecoder where
  load_instance_masks : Bool
  instance_mask_type : Nat
  label_map_proto_file : Option String
  use_display_name : Bool
  num_additional_channels : Nat
deriving DecidableEq, Repr

/-- Tag identifying the function passed to `Dataset.map`: in this module it
is always the local `process_fn` closure, determined by the decoder it closes
over and by whether a `transform_input_data_fn` was supplied. -/
inductive MapFn where
  | processFn (decoder : TfExampleDecoder) (hasTransform : Bool)
deriving DecidableEq, Repr

/-- Expression tree of the `tf.data` pipeline the module constructs.  Each
constructor is one library primitive applied by `dataset_builder.py`, with
the argument values the module passes at that call site. -/
inductive DatasetExpr where
  | fromTensorSlices (filenames : List String)
  | shuffle (buffer_size : Nat) (d : DatasetExpr)
  | repeatD (count : Option Nat) (d : DatasetExpr)
  | parallelInterleave (file_read_func : FileReadFn) (cycle_length : Nat)
      (block_length : Nat) (sloppy : Bool) (d : DatasetExpr)
  | shard (num_shards : Nat) (index : Nat) (d : DatasetExpr)
  | mapD (f : MapFn) (num_parallel_calls : Nat) (d : DatasetExpr)
  | batchAndDropRemainder (batch_size : Nat) (d : DatasetExpr)
  | prefetch (buffer_size : Nat) (d : DatasetExpr)
deriving DecidableEq, Repr

/-- Python truthiness of the optional integer `batch_size` argument:
`None` and `0` are falsy. -/
def pyTruthy : Option Nat → Bool
  | none => false
  | some n => n != 0

/-- Python value of the optional integer once known truthy. -/
def pyVal : Option Nat → Nat
  | none => 0
  | some n => n

/-- The expression `config.num_epochs or None` from line 77: a zero (unset)
`num_epochs` is falsy in Python, so the repeat count becomes `None`. -/
def epochsOrNone (n : Nat) : Option Nat :=
  if n = 0 then none else some n

/-- Lines 64 to 68: `num_readers` is reduced to the number of matched files
when it exceeds that number, and is otherwise left unchanged. -/
def clampReaders (num_readers : Nat) (numFiles : Nat) : Nat :=
  if num_readers > numFiles then numFiles else num_readers

/-- Embedding of `read_dataset(file_read_func, input_files, config)`
(lines 48 to 88).  `glob` stands for `tf.gfile.Glob`, an external call whose
result the function threads through.  Logging calls are ignored. -/
def read_dataset (glob : List String → List String) (file_read_func : FileReadFn)
    (input_files : List String) (config : InputReader) : DatasetExpr :=
  let filenames := glob input_files
  let num_readers := clampReaders config.num_readers filenames.length
  let filename_dataset0 := DatasetExpr.fromTensorSlices filenames
  let filename_dataset1 :=
    if config.shuffle then
      DatasetExpr.shuffle config.filenames_shuffle_buffer_size filename_dataset0
    else filename_dataset0
  let filename_dataset2 :=
    DatasetExpr.repeatD (epochsOrNone config.num_epochs) filename_dataset1
  let records_dataset :=
    DatasetExpr.parallelInterleave file_read_func num_readers
      config.read_block_length config.shuffle filename_dataset2
  if config.shuffle then
    DatasetExpr.shuffle config.shuffle_buffer_size records_dataset
  else records_dataset

/-- The errors `build` raises: one per `raise ValueError` site. -/
inductive BuildError where
  | notInputReader
  | noInputPaths
  | unsupportedInputReader
deriving DecidableEq, Repr

/-- The `TfExampleDecoder(...)` constructor call of lines 125 to 130,
including the `label_map_proto_file` computation of lines 120 to 122
(`None` unless `HasField` holds for `label_map_path`). -/
def buildDecoder (r : InputReader) : TfExampleDecoder where
  load_instance_masks := r.load_instance_masks
  instance_mask_type := r.mask_type
  label_map_proto_file := r.label_map_path
  use_display_name := r.use_display_name
  num_additional_channels := r.num_additional_channels

/-- Embedding of `process_fn(value)` (lines 132 to 139): decode the record,
then apply `transform_input_data_fn` when it is not `None`. -/
def process_fn {α β : Type} (decode : α → β) (transform_input_data_fn : Option (β → β))
    (value : α) : β :=
  let processed_tensors := decode value
  match transform_input_data_fn with
  | some f => f processed_tensors
  | none => processed_tensors

/-- Embedding of `build(input_reader_config, batch_size,
transform_input_data_fn)` (lines 91 to 165).  `glob` parameterizes the
external `tf.gfile.Glob` call made inside `read_dataset`; `τ` is the type of
the transform function, of which only presence matters to the pipeline
shape.  A `ValueError` becomes an `Except.error`. -/
def build {τ : Type} (glob : List String → List String) (input_reader_config : PyObject)
    (batch_size : Option Nat) (transform_input_data_fn : Option τ) :
    Except BuildError DatasetExpr :=
  match input_reader_config with
  | PyObject.notReader => Except.error BuildError.notInputReader
  | PyObject.reader r =>
    match r.input_reader with
    | some (InputReaderOneofCase.tf_record_input_reader config) =>
      if config.input_path = [] then Except.error BuildError.noInputPaths
      else
        let decoder := buildDecoder r
        let dataset := read_dataset glob (FileReadFn.tfRecordDataset 8000000)
          config.input_path r
        let dataset :=
          if r.sample_1_of_n_examples > 1 then
            DatasetExpr.shard r.sample_1_of_n_examples 0 dataset
          else dataset
        let num_parallel_calls :=
          if pyTruthy batch_size then pyVal batch_size * r.num_parallel_batches
          else r.num_parallel_map_calls
        let dataset :=
          DatasetExpr.mapD (MapFn.processFn decoder transform_input_data_fn.isSome)
            num_parallel_calls dataset
        let dataset :=
          if pyTruthy batch_size then
            DatasetExpr.batchAndDropRemainder (pyVal batch_size) dataset
          else dataset
        Except.ok (DatasetExpr.prefetch r.num_prefetch_batches dataset)
    | _ => Except.error BuildError.unsupportedInputReader

/-- Tags naming the pipeline construction steps, for stating ordering
properties of a built pipeline. -/
inductive StepTag where
  | fromTensorSlices
  | shuffle
  | repeatT
  | interleave
  | shard
  | mapT
  | batch
  | prefetch
deriving DecidableEq, Repr

/-- The sequence of pipeline steps of an expression, listed from the data
source outward, in the order the module applies them. -/
def trace : DatasetExpr → List StepTag
  | DatasetExpr.fromTensorSlices _ => [StepTag.fromTensorSlices]
  | DatasetExpr.shuffle _ d => trace d ++ [StepTag.shuffle]
  | DatasetExpr.repeatD _ d => trace d ++ [StepTag.repeatT]
  | DatasetExpr.parallelInterleave _ _ _ _ d => trace d ++ [StepTag.interleave]
  | DatasetExpr.shard _ _ d => trace d ++ [StepTag.shard]
  | DatasetExpr.mapD _ _ d => trace d ++ [StepTag.mapT]
  | DatasetExpr.batchAndDropRemainder _ d => trace d ++ [StepTag.batch]
  | DatasetExpr.prefetch _ d => trace d ++ [StepTag.prefetch]

/-- All source filename lists appearing at `from_tensor_slices` nodes. -/
def sourceFilenamesOf : DatasetExpr → List (List String)
  | DatasetExpr.fromTensorSlices l => [l]
  | DatasetExpr.shuffle _ d => sourceFilenamesOf d
  | DatasetExpr.repeatD _ d => sourceFilenamesOf d
  | DatasetExpr.parallelInterleave _ _ _ _ d => sourceFilenamesOf d
  | DatasetExpr.shard _ _ d => sourceFilenamesOf d
  | DatasetExpr.mapD _ _ d => sourceFilenamesOf d
  | DatasetExpr.batchAndDropRemainder _ d => sourceFilenamesOf d
  | DatasetExpr.prefetch _ d => sourceFilenamesOf d

/-- All `parallel_interleave` nodes of an expression, as tuples of
file-read function, cycle length, block length and sloppiness. -/
def interleavesOf : DatasetExpr → List (FileReadFn × Nat × Nat × Bool)
  | DatasetExpr.fromTensorSlices _ => []
  | DatasetExpr.shuffle _ d => interleavesOf d
  | DatasetExpr.repeatD _ d => interleavesOf d
  | DatasetExpr.parallelInterleave f c b s d => interleavesOf d ++ [(f, c, b, s)]
  | DatasetExpr.shard _ _ d => interleavesOf d
  | DatasetExpr.mapD _ _ d => interleavesOf d
  | DatasetExpr.batchAndDropRemainder _ d => interleavesOf d
  | DatasetExpr.prefetch _ d => interleavesOf d

/-- All batch sizes of `batch_and_drop_remainder` nodes of an expression. -/
def batchSizesOf : DatasetExpr → List Nat
  | DatasetExpr.fromTensorSlices _ => []
  | DatasetExpr.shuffle _ d => batchSizesOf d
  | DatasetExpr.repeatD _ d => batchSizesOf d
  | DatasetExpr.parallelInterleave _ _ _ _ d => batchSizesOf d
  | DatasetExpr.shard _ _ d => batchSizesOf d
  | DatasetExpr.mapD _ _ d => batchSizesOf d
  | DatasetExpr.batchAndDropRemainder n d => batchSizesOf d ++ [n]
  | DatasetExpr.prefetch _ d => batchSizesOf d

/-- All `map` nodes of an expression, each with its function tag and its
`num_parallel_calls` argument. -/
def mapNodesOf : DatasetExpr → List (MapFn × Nat)
  | DatasetExpr.fromTensorSlices _ => []
  | DatasetExpr.shuffle _ d => mapNodesOf d
  | DatasetExpr.repeatD _ d => mapNodesOf d
  | DatasetExpr.parallelInterleave _ _ _ _ d => mapNodesOf d
  | DatasetExpr.shard _ _ d => mapNodesOf d
  | DatasetExpr.mapD f n d => mapNodesOf d ++ [(f, n)]
  | DatasetExpr.batchAndDropRemainder _ d => mapNodesOf d
  | DatasetExpr.prefetch _ d => mapNodesOf d

/-- The filename dataset feeding the `parallel_interleave` node, reached by
peeling any record-level shuffle above it. -/
def filenameDatasetOf : DatasetExpr → Option DatasetExpr
  | DatasetExpr.shuffle _ d => filenameDatasetOf d
  | DatasetExpr.parallelInterleave _ _ _ _ d => some d
  | _ => none

/-- Modelled from the documented behavior of `Dataset.from_tensor_slices`,
`Dataset.shuffle` and `Dataset.repeat`: how many times the filename
pipeline yields the element `x` over a full pass.  `none` means the element
is yielded indefinitely often, which happens under `repeat` with count
`None` over a source containing `x`.  Shuffling permutes elements and
preserves multiplicities.  Nodes that cannot occur in a filename pipeline
contribute nothing. -/
def filenameCount : DatasetExpr → String → Option Nat
  | DatasetExpr.fromTensorSlices l, x => some (l.count x)
  | DatasetExpr.shuffle _ d, x => filenameCount d x
  | DatasetExpr.repeatD (some c) d, x => (filenameCount d x).map (c * ·)
  | DatasetExpr.repeatD none d, x =>
    match filenameCount d x with
    | some 0 => some 0
    | _ => none
  | _, _ => some 0

/-- Modelled from the documented behavior of
`tf.contrib.data.batch_and_drop_remainder`: consecutive elements are grouped
into batches of exactly `batch_size`, and a final batch with fewer than
`batch_size` elements is omitted. -/
def batchAndDropRemainderDen {α : Type} (batch_size : Nat) (l : List α) :
    List (List α) :=
  (List.range (l.length / batch_size)).map
    (fun i => (l.drop (i * batch_size)).take batch_size)

/-- Tag of the `make_initializable_iterator` result: an iterator over the
dataset it was created from, as the library documents. -/
structure TFIterator where
  source : DatasetExpr
deriving DecidableEq, Repr

/-- Graph operations that this module places into graph collections: only
iterator initializer ops, identified by the dataset the iterator reads. -/
inductive GraphOp where
  | iteratorInitOp (source : DatasetExpr)
deriving DecidableEq, Repr

/-- The `iterator.initializer` op of an iterator. -/
def TFIterator.initOp (it : TFIterator) : GraphOp :=
  GraphOp.iteratorInitOp it.source

/-- The `tf.GraphKeys.TABLE_INITIALIZERS` collection key. -/
def tableInitKey : String := "table_initializer"

/-- Modelled from the documented behavior of `tf.add_to_collection` on the
association list of named collections: append the op to the named
collection, creating the collection when absent. -/
def addToColls : List (String × List GraphOp) → String → GraphOp →
    List (String × List GraphOp)
  | [], name, op => [(name, [op])]
  | (k, v) :: rest, name, op =>
    if k = name then (k, v ++ [op]) :: rest
    else (k, v) :: addToColls rest name op

/-- Lookup of a named collection; an absent collection is empty. -/
def getColl : List (String × List GraphOp) → String → List GraphOp
  | [], _ => []
  | (k, v) :: rest, name => if k = name then v else getColl rest name

/-- The default graph state visible to this module: its named collections. -/
structure TFGraph where
  collections : List (String × List GraphOp)
deriving DecidableEq, Repr

/-- State-passing form of `tf.add_to_collection`. -/
def tf_add_to_collection (g : TFGraph) (name : String) (op : GraphOp) : TFGraph :=
  ⟨addToColls g.collections name op⟩

/-- State-passing form of `tf.get_collection`. -/
def tf_get_collection (g : TFGraph) (name : String) : List GraphOp :=
  getColl g.collections name

/-- Modelled from the documented behavior of the library method
`dataset.make_initializable_iterator()`: it creates an initializable
iterator over that dataset and does not touch the dataset or the graph
collections. -/
def datasetMakeInitIterator (dataset : DatasetExpr) : TFIterator :=
  ⟨dataset⟩

/-- Embedding of `make_initializable_iterator(dataset)` (lines 31 to 45),
with the graph-collection state passed explicitly: create the iterator,
add its initializer op to the `TABLE_INITIALIZERS` collection, and return
the iterator. -/
def make_initializable_iterator (dataset : DatasetExpr) (g : TFGraph) :
    TFIterator × TFGraph :=
  let iterator := datasetMakeInitIterator dataset
  (iterator, tf_add_to_collection g tableInitKey iterator.initOp)

/-- The position a step tag holds in the order asserted by the claim about
the pipeline step sequence (glob and source construction first, then shard,
shuffle, interleave, map, batch, prefetch); the repeat step is not mentioned
by that claim and is ignored. -/
def claimStageIdx : StepTag → Option Nat
  | StepTag.fromTensorSlices => some 0
  | StepTag.shard => some 1
  | StepTag.shuffle => some 2
  | StepTag.interleave => some 3
  | StepTag.mapT => some 4
  | StepTag.batch => some 5
  | StepTag.prefetch => some 6
  | StepTag.repeatT => none

/-- Whether a list of stage positions is nondecreasing. -/
def nondecreasing : List Nat → Bool
  | [] => true
  | [_] => true
  | a :: b :: rest => a ≤ b && nondecreasing (b :: rest)

/-- Formalization of claim C1 as stated (from the specification words, for
comparison with the pipeline the code builds): the steps of the pipeline,
restricted to the stages the claim lists, occur in the claimed order. -/
def claimC1Order (d : DatasetExpr) : Prop :=
  nondecreasing ((trace d).filterMap claimStageIdx) = true

instance (d : DatasetExpr) : Decidable (claimC1Order d) :=
  inferInstanceAs (Decidable (_ = true))

/-- Formalization of claim C5 as stated (from the specification words, for
comparison with the code): whenever the configuration does not request
repetition (its `num_epochs` field is unset, or asks for exactly one
epoch), the filename dataset inside the pipeline built by `read_dataset`
yields each matched file exactly as often as the glob produced it, with no
repetition. -/
def claimC5AsStated : Prop :=
  ∀ (glob : List String → List String) (fr : FileReadFn)
    (files : List String) (cfg : InputReader),
    cfg.num_epochs = 0 ∨ cfg.num_epochs = 1 →
    ∀ e, filenameDatasetOf (read_dataset glob fr files cfg) = some e →
    ∀ x, filenameCount e x = some ((glob files).count x)

/-- A sample valid configuration: shuffling on, two input paths, oneof set
to `tf_record_input_reader`. -/
def sampleReader : InputReader where
  num_readers := 4
  read_block_length := 32
  shuffle := true
  filenames_shuffle_buffer_size := 100
  shuffle_buffer_size := 2048
  num_epochs := 0
  sample_1_of_n_examples := 1
  num_parallel_batches := 2
  num_parallel_map_calls := 16
  num_prefetch_batches := 2
  load_instance_masks := false
  mask_type := 0
  use_display_name := false
  num_additional_channels := 0
  label_map_path := none
  input_reader := some (InputReaderOneofCase.tf_record_input_reader ⟨["a", "b"]⟩)

/-- A valid configuration with shuffling off and every-second-example
sharding on, exercising the `dataset.shard` step. -/
def shardReader : InputReader where
  num_readers := 2
  read_block_length := 32
  shuffle := false
  filenames_shuffle_buffer_size := 100
  shuffle_buffer_size := 2048
  num_epochs := 0
  sample_1_of_n_examples := 2
  num_parallel_batches := 2
  num_parallel_map_calls := 16
  num_prefetch_batches := 2
  load_instance_masks := false
  mask_type := 0
  use_display_name := false
  num_additional_channels := 0
  label_map_path := none
  input_reader := some (InputReaderOneofCase.tf_record_input_reader ⟨["a", "b"]⟩)

/-- A configuration with shuffling off and `num_epochs` unset, under which
the filename dataset is repeated indefinitely. -/
def epochZeroReader : InputReader where
  num_readers := 1
  read_block_length := 32
  shuffle := false
  filenames_shuffle_buffer_size := 100
  shuffle_buffer_size := 2048
  num_epochs := 0
  sample_1_of_n_examples := 1
  num_parallel_batches := 2
  num_parallel_map_calls := 16
  num_prefetch_batches := 2
  load_instance_masks := false
  mask_type := 0
  use_display_name := false
  num_additional_channels := 0
  label_map_path := none
  input_reader := some (InputReaderOneofCase.tf_record_input_reader ⟨["a"]⟩)

theorem batchAndDropRemainderDen_length {α : Type} (b : Nat) (l : List α) :
    (batchAndDropRemainderDen b l).length = l.length / b := by
  simp [batchAndDropRemainderDen]

theorem mem_batchAndDropRemainderDen_length {α : Type} {b : Nat} {l : List α}
    {batch : List α} (h : batch ∈ batchAndDropRemainderDen b l) :
    batch.length = b := by
  rcases List.mem_map.mp h with ⟨i, hi, rfl⟩
  rw [List.mem_range] at hi
  have hdiv : (i + 1) * b ≤ l.length := by
    calc (i + 1) * b ≤ l.length / b * b :=
          Nat.mul_le_mul_right b (Nat.succ_le_of_lt hi)
    _ ≤ l.length := Nat.div_mul_le_self _ _
  have hlen : (l.drop (i * b)).length = l.length - i * b := List.length_drop _ _
  rw [List.length_take, hlen]
  have : i * b + b ≤ l.length := by
    have := hdiv
    nlinarith [Nat.succ_mul i b]
  omega

theorem read_dataset_eq_of_shuffle (glob : List String → List String)
    (fr : FileReadFn) (files : List String) (cfg : InputReader)
    (h : cfg.shuffle = true) :
    read_dataset glob fr files cfg =
      DatasetExpr.shuffle cfg.shuffle_buffer_size
        (DatasetExpr.parallelInterleave fr
          (clampReaders cfg.num_readers (glob files).length)
          cfg.read_block_length true
          (DatasetExpr.repeatD (epochsOrNone cfg.num_epochs)
            (DatasetExpr.shuffle cfg.filenames_shuffle_buffer_size
              (DatasetExpr.fromTensorSlices (glob files))))) := by
  simp [read_dataset, h]

theorem read_dataset_eq_of_no_shuffle (glob : List String → List String)
    (fr : FileReadFn) (files : List String) (cfg : InputReader)
    (h : cfg.shuffle = false) :
    read_dataset glob fr files cfg =
      DatasetExpr.parallelInterleave fr
        (clampReaders cfg.num_readers (glob files).length)
        cfg.read_block_length false
        (DatasetExpr.repeatD (epochsOrNone cfg.num_epochs)
          (DatasetExpr.fromTensorSlices (glob files))) := by
  simp [read_dataset, h]

theorem trace_read_dataset (glob : List String → List String) (fr : FileReadFn)
    (files : List String) (cfg : InputReader) :
    trace (read_dataset glob fr files cfg) =
      [StepTag.fromTensorSlices]
        ++ (if cfg.shuffle then [StepTag.shuffle] else [])
        ++ [StepTag.repeatT, StepTag.interleave]
        ++ (if cfg.shuffle then [StepTag.shuffle] else []) := by
  cases h : cfg.shuffle <;> simp [read_dataset, trace, h]

theorem sourceFilenames_read_dataset (glob : List String → List String)
    (fr : FileReadFn) (files : List String) (cfg : InputReader) :
    sourceFilenamesOf (read_dataset glob fr files cfg) = [glob files] := by
  cases h : cfg.shuffle <;> simp [read_dataset, sourceFilenamesOf, h]

theorem mapNodes_read_dataset (glob : List String → List String)
    (fr : FileReadFn) (files : List String) (cfg : InputReader) :
    mapNodesOf (read_dataset glob fr files cfg) = [] := by
  cases h : cfg.shuffle <;> simp [read_dataset, mapNodesOf, h]

theorem batchSizes_read_dataset (glob : List String → List String)
    (fr : FileReadFn) (files : List String) (cfg : InputReader) :
    batchSizesOf (read_dataset glob fr files cfg) = [] := by
  cases h : cfg.shuffle <;> simp [read_dataset, batchSizesOf, h]

theorem build_ok_inv {τ : Type} (glob : List String → List String)
    (batch_size : Option Nat) (t : Option τ) (r : InputReader) (d : DatasetExpr)
    (h : build glob (PyObject.reader r) batch_size t = Except.ok d) :
    ∃ c, r.input_reader = some (InputReaderOneofCase.tf_record_input_reader c) ∧
      c.input_path ≠ [] ∧
      d = DatasetExpr.prefetch r.num_prefetch_batches
        (let rd := read_dataset glob (FileReadFn.tfRecordDataset 8000000)
          c.input_path r
         let sd := if r.sample_1_of_n_examples > 1 then
            DatasetExpr.shard r.sample_1_of_n_examples 0 rd
          else rd
         let md := DatasetExpr.mapD (MapFn.processFn (buildDecoder r) t.isSome)
          (if pyTruthy batch_size then pyVal batch_size * r.num_parallel_batches
           else r.num_parallel_map_calls) sd
         if pyTruthy batch_size then
           DatasetExpr.batchAndDropRemainder (pyVal batch_size) md
         else md) := by
  cases ho : r.input_reader with
  | none => simp [build, ho] at h
  | some o =>
    cases o with
    | external_input_reader => simp [build, ho] at h
    | tf_record_input_reader c =>
      by_cases hp : c.input_path = []
      · simp [build, ho, hp] at h
      · refine ⟨c, rfl, hp, ?_⟩
        simp [build, ho, hp] at h
        exact h.symm

/-- C3: for every configuration and file list, the interleave cycle length
used by `read_dataset` is `config.num_readers` clamped to the number of
files matched by glob expansion: reduced to the matched-file count when it
exceeds it, and used unchanged otherwise.  The pipeline contains exactly
one interleave node, whose remaining arguments are the file read function,
`config.read_block_length` and `sloppy = config.shuffle`. -/
theorem c3_interleave_cycle_clamped (glob : List String → List String)
    (fr : FileReadFn) (files : List String) (cfg : InputReader) :
    interleavesOf (read_dataset glob fr files cfg) =
      [(fr,
        (if cfg.num_readers > (glob files).length then (glob files).length
         else cfg.num_readers),
        cfg.read_block_length, cfg.shuffle)] := by
  cases h : cfg.shuffle <;>
    simp [read_dataset, interleavesOf, clampReaders, h]

/-- C7: shuffling in `read_dataset` is controlled by the single flag
`config.shuffle`: when it is true the filename dataset is shuffled with
buffer `filenames_shuffle_buffer_size` and the records dataset with buffer
`shuffle_buffer_size`; when it is false neither shuffle step appears in the
pipeline. -/
theorem c7_shuffle_iff (glob : List String → List String) (fr : FileReadFn)
    (files : List String) (cfg : InputReader) :
    (cfg.shuffle = true →
      read_dataset glob fr files cfg =
        DatasetExpr.shuffle cfg.shuffle_buffer_size
          (DatasetExpr.parallelInterleave fr
            (clampReaders cfg.num_readers (glob files).length)
            cfg.read_block_length true
            (DatasetExpr.repeatD (epochsOrNone cfg.num_epochs)
              (DatasetExpr.shuffle cfg.filenames_shuffle_buffer_size
                (DatasetExpr.fromTensorSlices (glob files)))))) ∧
    (cfg.shuffle = false →
      read_dataset glob fr files cfg =
        DatasetExpr.parallelInterleave fr
          (clampReaders cfg.num_readers (glob files).length)
          cfg.read_block_length false
          (DatasetExpr.repeatD (epochsOrNone cfg.num_epochs)
            (DatasetExpr.fromTensorSlices (glob files)))) :=
  ⟨read_dataset_eq_of_shuffle glob fr files cfg,
   read_dataset_eq_of_no_shuffle glob fr files cfg⟩

/-- Witness for C7 at a concrete shuffling configuration. -/
theorem c7_shuffle_iff_witness :
    read_dataset id (FileReadFn.tfRecordDataset 8000000) ["a", "b"] sampleReader =
      DatasetExpr.shuffle sampleReader.shuffle_buffer_size
        (DatasetExpr.parallelInterleave (FileReadFn.tfRecordDataset 8000000)
          (clampReaders sampleReader.num_readers (id ["a", "b"]).length)
          sampleReader.read_block_length true
          (DatasetExpr.repeatD (epochsOrNone sampleReader.num_epochs)
            (DatasetExpr.shuffle sampleReader.filenames_shuffle_buffer_size
              (DatasetExpr.fromTensorSlices (id ["a", "b"]))))) :=
  (c7_shuffle_iff id (FileReadFn.tfRecordDataset 8000000) ["a", "b"]
    sampleReader).1 rfl

/-- C6: whenever `build` returns a dataset, the outermost (final) step of
the pipeline is a prefetch of `input_reader_config.num_prefetch_batches`,
for every batch size argument. -/
theorem c6_final_prefetch {τ : Type} (glob : List String → List String)
    (batch_size : Option Nat) (t : Option τ) (r : InputReader) (d : DatasetExpr)
    (h : build glob (PyObject.reader r) batch_size t = Except.ok d) :
    ∃ d0, d = DatasetExpr.prefetch r.num_prefetch_batches d0 := by
  obtain ⟨c, ho, hp, rfl⟩ := build_ok_inv glob batch_size t r d h
  exact ⟨_, rfl⟩

/-- Witness for C6 at a concrete configuration and batch size. -/
theorem c6_final_prefetch_witness :
    ∃ d d0, build id (PyObject.reader sampleReader) (some 2) (none : Option Unit) =
        Except.ok d ∧
      d = DatasetExpr.prefetch sampleReader.num_prefetch_batches d0 := by
  obtain ⟨d0, h0⟩ :=
    c6_final_prefetch id (some 2) (none : Option Unit) sampleReader _ rfl
  exact ⟨_, d0, rfl, h0⟩

/-- C9: the map step runs with `batch_size * num_parallel_batches` parallel
calls when `batch_size` is truthy, and with `num_parallel_map_calls`
parallel calls when `batch_size` is `None` (or falsy `0`). -/
theorem c9_map_parallelism {τ : Type} (glob : List String → List String)
    (batch_size : Option Nat) (t : Option τ) (r : InputReader) (d : DatasetExpr)
    (h : build glob (PyObject.reader r) batch_size t = Except.ok d) :
    (∀ n, batch_size = some n → n ≠ 0 →
      (mapNodesOf d).map Prod.snd = [n * r.num_parallel_batches]) ∧
    (batch_size = none ∨ batch_size = some 0 →
      (mapNodesOf d).map Prod.snd = [r.num_parallel_map_calls]) := by
  obtain ⟨c, ho, hp, rfl⟩ := build_ok_inv glob batch_size t r d h
  constructor
  · rintro n rfl hn
    have ht : pyTruthy (some n) = true := by simp [pyTruthy, hn]
    by_cases hs : r.sample_1_of_n_examples > 1 <;>
      simp [mapNodesOf, ht, hs, pyVal, mapNodes_read_dataset]
  · rintro (rfl | rfl) <;>
      · by_cases hs : r.sample_1_of_n_examples > 1 <;>
          simp [mapNodesOf, pyTruthy, hs, mapNodes_read_dataset]

/-- Witness for C9 at a concrete configuration with batch size 2. -/
theorem c9_map_parallelism_witness :
    ∃ d, build id (PyObject.reader sampleReader) (some 2) (none : Option Unit) =
        Except.ok d ∧
      (mapNodesOf d).map Prod.snd = [2 * sampleReader.num_parallel_batches] := by
  refine ⟨_, rfl, ?_⟩
  exact (c9_map_parallelism id (some 2) (none : Option Unit) sampleReader _
    rfl).1 2 rfl (by decide)

/-- C8: `process_fn` first decodes the record and then applies the supplied
transform exactly when one was supplied, returning the decoded tensors
unchanged otherwise; and the map step of every pipeline built by `build`
uses `process_fn` with the decoder built from the configuration and with
the transform present exactly when `transform_input_data_fn` is not
`None`. -/
theorem c8_decode_then_transform :
    (∀ (α β : Type) (decode : α → β) (f : β → β) (v : α),
      process_fn decode (some f) v = f (decode v)) ∧
    (∀ (α β : Type) (decode : α → β) (v : α),
      process_fn decode none v = decode v) ∧
    (∀ (τ : Type) (glob : List String → List String) (batch_size : Option Nat)
      (t : Option τ) (r : InputReader) (d : DatasetExpr),
      build glob (PyObject.reader r) batch_size t = Except.ok d →
      (mapNodesOf d).map Prod.fst =
        [MapFn.processFn (buildDecoder r) t.isSome]) := by
  refine ⟨fun α β decode f v => rfl, fun α β decode v => rfl, ?_⟩
  intro τ glob batch_size t r d h
  obtain ⟨c, ho, hp, rfl⟩ := build_ok_inv glob batch_size t r d h
  by_cases hs : r.sample_1_of_n_examples > 1 <;>
    by_cases hb : pyTruthy batch_size <;>
      simp [mapNodesOf, hs, hb, mapNodes_read_dataset]

/-- Witness for C8 at a concrete configuration with no transform. -/
theorem c8_decode_then_transform_witness :
    ∃ d, build id (PyObject.reader sampleReader) (some 2) (none : Option Unit) =
        Except.ok d ∧
      (mapNodesOf d).map Prod.fst =
        [MapFn.processFn (buildDecoder sampleReader) (none : Option Unit).isSome] := by
  refine ⟨_, rfl, ?_⟩
  exact c8_decode_then_transform.2.2 Unit id (some 2) (none : Option Unit)
    sampleReader _ rfl

theorem except_error_or_ok {ε α : Type} (x : Except ε α) :
    (∃ e, x = Except.error e) ∨ (∃ a, x = Except.ok a) := by
  cases x
  · exact Or.inl ⟨_, rfl⟩
  · exact Or.inr ⟨_, rfl⟩

/-- C2: `build` fails exactly when the argument is not an `InputReader`
instance, or the `tf_record_input_reader` sub-message has an empty
`input_path` list, or the oneof is set to another member; in every other
case it returns a dataset.  The empty-path condition uses the proto
accessor, which yields the default empty message when the oneof is not set
to `tf_record_input_reader`, so an unset oneof is covered as well. -/
theorem c2_build_error_iff {τ : Type} (glob : List String → List String)
    (batch_size : Option Nat) (t : Option τ) (arg : PyObject) :
    ((∃ e, build glob arg batch_size t = Except.error e) ↔
      (arg = PyObject.notReader ∨
       (∃ r, arg = PyObject.reader r ∧
          r.tf_record_input_reader.input_path = []) ∨
       (∃ r o, arg = PyObject.reader r ∧ r.input_reader = some o ∧
          ∀ c, o ≠ InputReaderOneofCase.tf_record_input_reader c))) ∧
    ((∃ d, build glob arg batch_size t = Except.ok d) ↔
      ¬ (arg = PyObject.notReader ∨
         (∃ r, arg = PyObject.reader r ∧
            r.tf_record_input_reader.input_path = []) ∨
         (∃ r o, arg = PyObject.reader r ∧ r.input_reader = some o ∧
            ∀ c, o ≠ InputReaderOneofCase.tf_record_input_reader c))) := by
  have key : (∃ e, build glob arg batch_size t = Except.error e) ↔
      (arg = PyObject.notReader ∨
       (∃ r, arg = PyObject.reader r ∧
          r.tf_record_input_reader.input_path = []) ∨
       (∃ r o, arg = PyObject.reader r ∧ r.input_reader = some o ∧
          ∀ c, o ≠ InputReaderOneofCase.tf_record_input_reader c)) := by
    constructor
    · rintro ⟨e, he⟩
      cases arg with
      | notReader => exact Or.inl rfl
      | reader r =>
        cases ho : r.input_reader with
        | none =>
          exact Or.inr (Or.inl ⟨r, rfl,
            by simp [InputReader.tf_record_input_reader, ho]⟩)
        | some o =>
          cases o with
          | external_input_reader =>
            refine Or.inr (Or.inr ⟨r, _, rfl, ho, ?_⟩)
            intro c hc
            cases hc
          | tf_record_input_reader c =>
            by_cases hp : c.input_path = []
            · exact Or.inr (Or.inl ⟨r, rfl,
                by simp [InputReader.tf_record_input_reader, ho, hp]⟩)
            · exfalso
              simp [build, ho, hp] at he
    · rintro (rfl | ⟨r, rfl, hpath⟩ | ⟨r, o, rfl, ho, hno⟩)
      · exact ⟨BuildError.notInputReader, rfl⟩
      · cases ho : r.input_reader with
        | none =>
          exact ⟨BuildError.unsupportedInputReader, by simp [build, ho]⟩
        | some o =>
          cases o with
          | external_input_reader =>
            exact ⟨BuildError.unsupportedInputReader, by simp [build, ho]⟩
          | tf_record_input_reader c =>
            have hc : c.input_path = [] := by
              simpa [InputReader.tf_record_input_reader, ho] using hpath
            exact ⟨BuildError.noInputPaths, by simp [build, ho, hc]⟩
      · cases o with
        | tf_record_input_reader c => exact absurd rfl (hno c)
        | external_input_reader =>
          exact ⟨BuildError.unsupportedInputReader, by simp [build, ho]⟩
  refine ⟨key, ?_⟩
  constructor
  · rintro ⟨d, hd⟩ hcond
    obtain ⟨e, he⟩ := key.mpr hcond
    rw [hd] at he
    cases he
  · intro hcond
    rcases except_error_or_ok (build glob arg batch_size t) with ⟨e, he⟩ | hok
    · exact absurd (key.mp ⟨e, he⟩) hcond
    · exact hok

/-- Witness for C2: a non-InputReader argument makes `build` raise. -/
theorem c2_build_error_iff_witness :
    ∃ e, build id PyObject.notReader none (none : Option Unit) =
      Except.error e :=
  (c2_build_error_iff id none (none : Option Unit) PyObject.notReader).1.mpr
    (Or.inl rfl)

/-- C4: batching is applied exactly when `batch_size` is truthy, with the
`batch_and_drop_remainder` transform: every emitted batch then has exactly
`batch_size` elements and the number of batches is the floor quotient, so
a final partial remainder is dropped; with `batch_size = None` the pipeline
contains no batching step. -/
theorem c4_batching {τ : Type} (glob : List String → List String)
    (t : Option τ) (r : InputReader) :
    (∀ n d, n ≠ 0 →
      build glob (PyObject.reader r) (some n) t = Except.ok d →
      batchSizesOf d = [n] ∧
      (∀ (α : Type) (l batch : List α),
        batch ∈ batchAndDropRemainderDen n l → batch.length = n) ∧
      (∀ (α : Type) (l : List α),
        (batchAndDropRemainderDen n l).length = l.length / n)) ∧
    (∀ d, build glob (PyObject.reader r) none t = Except.ok d →
      batchSizesOf d = []) := by
  constructor
  · intro n d hn h
    obtain ⟨c, ho, hp, rfl⟩ := build_ok_inv glob (some n) t r d h
    have ht : pyTruthy (some n) = true := by simp [pyTruthy, hn]
    refine ⟨?_, fun α l batch hb => mem_batchAndDropRemainderDen_length hb,
      fun α l => batchAndDropRemainderDen_length n l⟩
    by_cases hs : r.sample_1_of_n_examples > 1 <;>
      simp [batchSizesOf, ht, hs, pyVal, batchSizes_read_dataset]
  · intro d h
    obtain ⟨c, ho, hp, rfl⟩ := build_ok_inv glob none t r d h
    by_cases hs : r.sample_1_of_n_examples > 1 <;>
      simp [batchSizesOf, pyTruthy, hs, batchSizes_read_dataset]

/-- Witness for C4 at batch size 3 on seven elements: two full batches. -/
theorem c4_batching_witness :
    ∃ d, build id (PyObject.reader sampleReader) (some 3) (none : Option Unit) =
        Except.ok d ∧
      batchSizesOf d = [3] ∧
      (∀ batch, batch ∈ batchAndDropRemainderDen 3 [0, 1, 2, 3, 4, 5, 6] →
        batch.length = 3) ∧
      (batchAndDropRemainderDen 3 ([0, 1, 2, 3, 4, 5, 6] : List Nat)).length =
        2 := by
  refine ⟨_, rfl, ?_⟩
  obtain ⟨h1, h2, h3⟩ :=
    (c4_batching id (none : Option Unit) sampleReader).1 3 _ (by decide) rfl
  exact ⟨h1, fun batch hb => h2 Nat [0, 1, 2, 3, 4, 5, 6] batch hb,
    h3 Nat [0, 1, 2, 3, 4, 5, 6]⟩

theorem getColl_addToColls (l : List (String × List GraphOp))
    (name k : String) (op : GraphOp) :
    getColl (addToColls l name op) k =
      if k = name then getColl l k ++ [op] else getColl l k := by
  induction l with
  | nil =>
    by_cases hk : k = name
    · subst hk
      simp [addToColls, getColl]
    · have hk2 : ¬ name = k := fun h => hk h.symm
      simp [addToColls, getColl, hk, hk2]
  | cons hd tl ih =>
    obtain ⟨k0, v0⟩ := hd
    by_cases h0 : k0 = name
    · subst h0
      by_cases hk : k = k0
      · subst hk
        simp [addToColls, getColl]
      · have hk2 : ¬ k0 = k := fun h => hk h.symm
        simp [addToColls, getColl, hk, hk2]
    · by_cases hk : k0 = k
      · subst hk
        have hk2 : ¬ k0 = name := h0
        simp [addToColls, getColl, hk2, h0, fun h : k0 = name => h0 h]
      · simp [addToColls, getColl, h0, hk, ih]

/-- C10: `make_initializable_iterator` returns the initializable iterator
created from the given dataset; its only effect on the graph state is to
append that iterator initializer op to the `TABLE_INITIALIZERS` collection,
every other collection being left unchanged; the dataset recorded in the
iterator is the argument itself, unmodified. -/
theorem c10_make_initializable_iterator (dataset : DatasetExpr) (g : TFGraph) :
    (make_initializable_iterator dataset g).1 = datasetMakeInitIterator dataset ∧
    (make_initializable_iterator dataset g).1.source = dataset ∧
    tf_get_collection (make_initializable_iterator dataset g).2 tableInitKey =
      tf_get_collection g tableInitKey ++
        [(make_initializable_iterator dataset g).1.initOp] ∧
    (∀ k, k ≠ tableInitKey →
      tf_get_collection (make_initializable_iterator dataset g).2 k =
        tf_get_collection g k) := by
  refine ⟨rfl, rfl, ?_, ?_⟩
  · simp [make_initializable_iterator, tf_get_collection,
      tf_add_to_collection, getColl_addToColls]
  · intro k hk
    simp [make_initializable_iterator, tf_get_collection,
      tf_add_to_collection, getColl_addToColls, hk]

/-- Witness for C10: a collection other than `TABLE_INITIALIZERS` is left
unchanged at a concrete dataset and graph. -/
theorem c10_make_initializable_iterator_witness :
    tf_get_collection
        (make_initializable_iterator (DatasetExpr.fromTensorSlices ["a"])
          ⟨[]⟩).2 "x" =
      tf_get_collection ⟨[]⟩ "x" :=
  (c10_make_initializable_iterator (DatasetExpr.fromTensorSlices ["a"])
    ⟨[]⟩).2.2.2 "x" (by decide)

/-- C1 counterexample: with sharding requested (`sample_1_of_n_examples`
equal to 2), the `dataset.shard` step is applied after the interleave step,
not between glob expansion and shuffling, so the step order the claim
asserts fails on a concrete valid configuration. -/
theorem c1_counterexample :
    ∃ d, build id (PyObject.reader shardReader) (some 1) (none : Option Unit) =
        Except.ok d ∧
      ¬ claimC1Order d := by
  refine ⟨_, rfl, ?_⟩
  decide

/-- C1 amended: for every valid `tf_record_input_reader` configuration the
pipeline steps are applied in this order: source construction from the
glob-expanded input paths, optional filename shuffle, repeat, parallel
interleaved reading, optional record shuffle, optional shard, the
decode/transform map, optional batching, prefetching; the `num_readers`
clamp happens at glob time and feeds the interleave cycle length. -/
theorem c1_amended {τ : Type} (glob : List String → List String)
    (batch_size : Option Nat) (t : Option τ) (r : InputReader) (d : DatasetExpr)
    (h : build glob (PyObject.reader r) batch_size t = Except.ok d) :
    trace d =
      [StepTag.fromTensorSlices]
        ++ (if r.shuffle then [StepTag.shuffle] else [])
        ++ [StepTag.repeatT, StepTag.interleave]
        ++ (if r.shuffle then [StepTag.shuffle] else [])
        ++ (if r.sample_1_of_n_examples > 1 then [StepTag.shard] else [])
        ++ [StepTag.mapT]
        ++ (if pyTruthy batch_size then [StepTag.batch] else [])
        ++ [StepTag.prefetch] ∧
    sourceFilenamesOf d = [glob r.tf_record_input_reader.input_path] := by
  obtain ⟨c, ho, hp, rfl⟩ := build_ok_inv glob batch_size t r d h
  have hacc : r.tf_record_input_reader = c := by
    simp [InputReader.tf_record_input_reader, ho]
  constructor
  · by_cases hs : r.sample_1_of_n_examples > 1 <;>
      by_cases hb : pyTruthy batch_size <;>
        simp [trace, hs, hb, trace_read_dataset]
  · by_cases hs : r.sample_1_of_n_examples > 1 <;>
      by_cases hb : pyTruthy batch_size <;>
        simp [sourceFilenamesOf, hs, hb, sourceFilenames_read_dataset, hacc]

/-- Witness for the amended C1 at a concrete shuffling configuration with
no batching. -/
theorem c1_amended_witness :
    ∃ d, build id (PyObject.reader sampleReader) none (none : Option Unit) =
        Except.ok d ∧
      trace d =
        [StepTag.fromTensorSlices]
          ++ (if sampleReader.shuffle then [StepTag.shuffle] else [])
          ++ [StepTag.repeatT, StepTag.interleave]
          ++ (if sampleReader.shuffle then [StepTag.shuffle] else [])
          ++ (if sampleReader.sample_1_of_n_examples > 1 then [StepTag.shard]
              else [])
          ++ [StepTag.mapT]
          ++ (if pyTruthy none then [StepTag.batch] else [])
          ++ [StepTag.prefetch] ∧
      sourceFilenamesOf d =
        [id sampleReader.tf_record_input_reader.input_path] := by
  refine ⟨_, rfl, ?_⟩
  exact c1_amended id none (none : Option Unit) sampleReader _ rfl

/-- C5 counterexample: the claim that a configuration not requesting
repetition yields each matched file exactly once fails: with `num_epochs`
unset (0) the code calls `repeat(None)`, so the single matched file is
yielded indefinitely often. -/
theorem c5_counterexample : ¬ claimC5AsStated := by
  intro h
  have h2 := h id (FileReadFn.tfRecordDataset 8000000) ["a"] epochZeroReader
    (Or.inl rfl)
    (DatasetExpr.repeatD none (DatasetExpr.fromTensorSlices ["a"]))
    (by decide) "a"
  exact absurd h2 (by decide)

/-- C5 amended: `read_dataset` always applies the repeat step with count
`num_epochs or None`: when `num_epochs` is a positive `n` each matched file
is yielded `n` times over a full pass (so exactly once when `num_epochs` is
1), and when `num_epochs` is unset (0) every matched file is yielded
indefinitely often. -/
theorem c5_amended (glob : List String → List String) (fr : FileReadFn)
    (files : List String) (cfg : InputReader) (e : DatasetExpr)
    (h : filenameDatasetOf (read_dataset glob fr files cfg) = some e)
    (x : String) :
    filenameCount e x =
      if cfg.num_epochs = 0 then
        (if (glob files).count x = 0 then some 0 else none)
      else some (cfg.num_epochs * (glob files).count x) := by
  have he : e = DatasetExpr.repeatD (epochsOrNone cfg.num_epochs)
      (if cfg.shuffle then
        DatasetExpr.shuffle cfg.filenames_shuffle_buffer_size
          (DatasetExpr.fromTensorSlices (glob files))
       else DatasetExpr.fromTensorSlices (glob files)) := by
    cases hs : cfg.shuffle <;>
      · simp [read_dataset, filenameDatasetOf, hs] at h
        exact h.symm
  subst he
  by_cases h0 : cfg.num_epochs = 0
  · cases hs : cfg.shuffle <;>
      cases hc : (glob files).count x <;>
        simp [filenameCount, epochsOrNone, h0, hs, hc]
  · cases hs : cfg.shuffle <;>
      simp [filenameCount, epochsOrNone, h0, hs]

/-- Witness for the amended C5 at a concrete configuration with unset
`num_epochs` and one matched file. -/
theorem c5_amended_witness :
    filenameCount
        (DatasetExpr.repeatD none (DatasetExpr.fromTensorSlices ["a"])) "a" =
      if epochZeroReader.num_epochs = 0 then
        (if (id ["a"]).count "a" = 0 then some 0 else none)
      else some (epochZeroReader.num_epochs * (id ["a"]).count "a") :=
  c5_amended id (FileReadFn.tfRecordDataset 8000000) ["a"] epochZeroReader
    _ rfl "a"
